import Mathlib

/-!
Verification of the `instancebuilder` registry (src/lib.rs).

Modelling choices for the shallow embedding:
* Rust type identities (`std::any::TypeId`) are an abstract type `Id` with
  decidable equality; `interp : Id → Type` sends a type identity to the
  Lean type of the values of the Rust type it identifies.
* A boxed `dyn Any + Send + Sync` value is an `AnyBox`: the `TypeId` of the
  concrete value together with the value itself, exactly what the Rust
  runtime representation of a trait object carries.
* The field `data: HashMap<TypeId, Box<dyn Any + Send + Sync>>` is modelled
  extensionally as a function `Id → Option (AnyBox Id interp)`; the struct
  field is named `dataMap` here because the method `InstanceBuilder::data`
  keeps its source name `data`.
* `std::any::type_name` is an uninterpreted parameter `type_name : Id → String`.
* Methods taking `&self` are pure functions of the registry; the variants
  with suffix `S` additionally thread the registry state explicitly, which
  is the translation of a `&self` receiver (the post-state is the receiver,
  unchanged).
-/

/-- Model of a `Box<dyn Any + Send + Sync>` value: a type-erased value
carrying the runtime type identity of the concrete value it stores. -/
structure AnyBox (Id : Type) (interp : Id → Type) where
  tid : Id
  val : interp tid

/-- Model of `<dyn Any>::downcast_ref::<D>`: yields the stored value exactly
when its runtime type identity equals the requested identity `d`. -/
def AnyBox.downcast_ref {Id : Type} [DecidableEq Id] {interp : Id → Type}
    (b : AnyBox Id interp) (d : Id) : Option (interp d) :=
  if h : b.tid = d then some (h ▸ b.val) else none

/-- Model of `pub struct InstanceBuilder { data: HashMap<TypeId, Box<dyn Any + Send + Sync>> }`. -/
structure InstanceBuilder (Id : Type) (interp : Id → Type) where
  dataMap : Id → Option (AnyBox Id interp)

/-- Model of `InstanceBuilder::new`: the empty registry (`Default::default()`
of the hash map has no entries). -/
def InstanceBuilder.new {Id : Type} {interp : Id → Type} : InstanceBuilder Id interp :=
  ⟨fun _ => none⟩

/-- Model of `InstanceBuilder::insert::<D>`: stores the boxed value under the
key `TypeId::of::<D>()`, replacing a previous entry with that key. -/
def InstanceBuilder.insert {Id : Type} [DecidableEq Id] {interp : Id → Type}
    (r : InstanceBuilder Id interp) (d : Id) (v : interp d) : InstanceBuilder Id interp :=
  ⟨fun k => if k = d then some ⟨d, v⟩ else r.dataMap k⟩

/-- Model of `pub enum BuilderError`. -/
inductive BuilderError where
  | DataDoesNotExist (ty : String)
  | Other (err : String)
  deriving DecidableEq

/-- Model of `InstanceBuilder::data_opt::<D>`: look the key up in the map,
then downcast the boxed value to `D`. -/
def InstanceBuilder.data_opt {Id : Type} [DecidableEq Id] {interp : Id → Type}
    (r : InstanceBuilder Id interp) (d : Id) : Option (interp d) :=
  (r.dataMap d).bind fun b => b.downcast_ref d

/-- Model of `InstanceBuilder::data::<D>`: `data_opt` with the absent case
turned into a `DataDoesNotExist` error naming the requested type. -/
def InstanceBuilder.data {Id : Type} [DecidableEq Id] {interp : Id → Type}
    (r : InstanceBuilder Id interp) (type_name : Id → String) (d : Id) :
    Except BuilderError (interp d) :=
  match r.data_opt d with
  | some v => Except.ok v
  | none => Except.error (BuilderError.DataDoesNotExist (type_name d))

/-- Model of `pub trait FromInstanceBuilder: Sized`, as a dictionary holding
the one required operation `try_from_builder`. -/
structure FromInstanceBuilder (Id : Type) (interp : Id → Type) (T : Type) where
  try_from_builder : InstanceBuilder Id interp → Except BuilderError T

/-- Model of `InstanceBuilder::build::<T>`: delegates to the construction
logic of `T`, passing the registry by reference. -/
def InstanceBuilder.build {Id : Type} {interp : Id → Type} {T : Type}
    (r : InstanceBuilder Id interp) (inst : FromInstanceBuilder Id interp T) :
    Except BuilderError T :=
  inst.try_from_builder r

/-- Model of `impl Default for InstanceBuilder`: `default` calls `new`. -/
def InstanceBuilder.default {Id : Type} {interp : Id → Type} : InstanceBuilder Id interp :=
  InstanceBuilder.new

/-- `data_opt` takes `&self`: threading the state of the receiver through
the call explicitly, the post-state is the unchanged receiver. -/
def InstanceBuilder.data_optS {Id : Type} [DecidableEq Id] {interp : Id → Type}
    (r : InstanceBuilder Id interp) (d : Id) :
    Option (interp d) × InstanceBuilder Id interp :=
  (r.data_opt d, r)

/-- `data` takes `&self`: state-threaded form of the call. -/
def InstanceBuilder.dataS {Id : Type} [DecidableEq Id] {interp : Id → Type}
    (r : InstanceBuilder Id interp) (type_name : Id → String) (d : Id) :
    Except BuilderError (interp d) × InstanceBuilder Id interp :=
  (r.data type_name d, r)

/-- `build` takes `&self`, and hands the construction logic only a shared
reference: state-threaded form of the call. -/
def InstanceBuilder.buildS {Id : Type} {interp : Id → Type} {T : Type}
    (r : InstanceBuilder Id interp) (inst : FromInstanceBuilder Id interp T) :
    Except BuilderError T × InstanceBuilder Id interp :=
  (r.build inst, r)

/-- A registry built from `new()` by a sequence of `insert` calls, first
list element inserted first. -/
def InstanceBuilder.ofInserts {Id : Type} [DecidableEq Id] {interp : Id → Type}
    (l : List (Sigma interp)) : InstanceBuilder Id interp :=
  l.foldl (fun r e => r.insert e.1 e.2) InstanceBuilder.new

/-- Internal storage invariant: every boxed value is stored under the key
equal to its own runtime type identity. -/
def InstanceBuilder.WellTyped {Id : Type} {interp : Id → Type}
    (r : InstanceBuilder Id interp) : Prop :=
  ∀ k b, r.dataMap k = some b → b.tid = k

/-- A concrete interpretation for witnesses: two distinct type identities,
both denoting structurally identical value types. -/
def natInterp : Nat → Type := fun _ => Nat

/-- A concrete display-name function for witnesses. -/
def natName : Nat → String := fun n => toString n

/- ------------------------------------------------------------------ -/
/- Helper lemmas, shared by the claim theorems.                        -/
/- ------------------------------------------------------------------ -/

lemma InstanceBuilder.ext_of_dataMap {Id : Type} {interp : Id → Type}
    {r s : InstanceBuilder Id interp} (h : r.dataMap = s.dataMap) : r = s :=
  congrArg InstanceBuilder.mk h

lemma InstanceBuilder.dataMap_insert {Id : Type} [DecidableEq Id] {interp : Id → Type}
    (r : InstanceBuilder Id interp) (d : Id) (v : interp d) (k : Id) :
    (r.insert d v).dataMap k = if k = d then some ⟨d, v⟩ else r.dataMap k :=
  rfl

lemma InstanceBuilder.data_opt_insert_self {Id : Type} [DecidableEq Id] {interp : Id → Type}
    (r : InstanceBuilder Id interp) (d : Id) (v : interp d) :
    (r.insert d v).data_opt d = some v := by
  show ((if d = d then some ⟨d, v⟩ else r.dataMap d).bind fun b => b.downcast_ref d) = some v
  rw [if_pos rfl]
  show AnyBox.downcast_ref ⟨d, v⟩ d = some v
  rw [AnyBox.downcast_ref, dif_pos rfl]

lemma InstanceBuilder.data_opt_insert_of_ne {Id : Type} [DecidableEq Id] {interp : Id → Type}
    (r : InstanceBuilder Id interp) (d e : Id) (v : interp d) (h : e ≠ d) :
    (r.insert d v).data_opt e = r.data_opt e := by
  show ((if e = d then some ⟨d, v⟩ else r.dataMap e).bind fun b => b.downcast_ref e) = _
  rw [if_neg h]
  rfl

lemma InstanceBuilder.foldl_insert_dataMap {Id : Type} [DecidableEq Id] {interp : Id → Type}
    (l : List (Sigma interp)) (r : InstanceBuilder Id interp) (d : Id)
    (h : ∀ e ∈ l, e.1 ≠ d) :
    (l.foldl (fun r e => r.insert e.1 e.2) r).dataMap d = r.dataMap d := by
  induction l generalizing r with
  | nil => rfl
  | cons a t ih =>
    rw [List.foldl_cons, ih (r.insert a.1 a.2) (fun e he => h e (List.mem_cons_of_mem _ he)),
      r.dataMap_insert a.1 a.2 d, if_neg (fun hd => h a (List.mem_cons_self a t) hd.symm)]

lemma InstanceBuilder.data_opt_of_none {Id : Type} [DecidableEq Id] {interp : Id → Type}
    (r : InstanceBuilder Id interp) (d : Id) (h : r.dataMap d = none) :
    r.data_opt d = none := by
  show (r.dataMap d).bind (fun b => b.downcast_ref d) = none
  rw [h]
  rfl

lemma InstanceBuilder.dataMap_ofInserts_none {Id : Type} [DecidableEq Id] {interp : Id → Type}
    (l : List (Sigma interp)) (d : Id) (h : ∀ e ∈ l, e.1 ≠ d) :
    (InstanceBuilder.ofInserts l : InstanceBuilder Id interp).dataMap d = none := by
  rw [InstanceBuilder.ofInserts, InstanceBuilder.foldl_insert_dataMap l _ d h]
  rfl

lemma InstanceBuilder.wellTyped_new {Id : Type} {interp : Id → Type} :
    (InstanceBuilder.new : InstanceBuilder Id interp).WellTyped := by
  intro k b hb
  cases hb

lemma InstanceBuilder.wellTyped_insert {Id : Type} [DecidableEq Id] {interp : Id → Type}
    {r : InstanceBuilder Id interp} (h : r.WellTyped) (d : Id) (v : interp d) :
    (r.insert d v).WellTyped := by
  intro k b hb
  rw [r.dataMap_insert d v k] at hb
  by_cases hk : k = d
  · rw [if_pos hk] at hb
    cases hb
    exact hk.symm
  · rw [if_neg hk] at hb
    exact h k b hb

lemma InstanceBuilder.wellTyped_foldl {Id : Type} [DecidableEq Id] {interp : Id → Type}
    (l : List (Sigma interp)) (r : InstanceBuilder Id interp) (h : r.WellTyped) :
    (l.foldl (fun r e => r.insert e.1 e.2) r).WellTyped := by
  induction l generalizing r with
  | nil => exact h
  | cons a t ih =>
    rw [List.foldl_cons]
    exact ih _ (InstanceBuilder.wellTyped_insert h a.1 a.2)

lemma InstanceBuilder.data_opt_isSome_iff {Id : Type} [DecidableEq Id] {interp : Id → Type}
    {r : InstanceBuilder Id interp} (h : r.WellTyped) (d : Id) :
    (r.data_opt d).isSome ↔ (r.dataMap d).isSome := by
  show ((r.dataMap d).bind fun b => b.downcast_ref d).isSome ↔ _
  cases hm : r.dataMap d with
  | none => rfl
  | some b =>
    show (b.downcast_ref d).isSome ↔ (some b).isSome
    rw [AnyBox.downcast_ref, dif_pos (h d b hm)]
    rfl

/- ------------------------------------------------------------------ -/
/- Claim theorems.                                                     -/
/- ------------------------------------------------------------------ -/

/-- C1: for every type identity `d` and value `v`, inserting `v` into any
registry and then performing the optional lookup `data_opt` for that type
returns a present reference whose contents equal `v`. -/
theorem InstanceBuilder.data_opt_after_insert {Id : Type} [DecidableEq Id] {interp : Id → Type}
    (r : InstanceBuilder Id interp) (d : Id) (v : interp d) :
    (r.insert d v).data_opt d = some v :=
  r.data_opt_insert_self d v

/-- C2: on the empty registry produced by `new()`, and on every registry
built by a sequence of inserts none of which had type `d`, the optional
lookup `data_opt` returns `none` and the mandatory lookup `data` returns a
`DataDoesNotExist` error carrying the display name of `d`. -/
theorem InstanceBuilder.lookup_of_never_inserted {Id : Type} [DecidableEq Id] {interp : Id → Type}
    (type_name : Id → String) (l : List (Sigma interp)) (d : Id)
    (h : ∀ e ∈ l, e.1 ≠ d) :
    (InstanceBuilder.new : InstanceBuilder Id interp).data_opt d = none ∧
    (InstanceBuilder.new : InstanceBuilder Id interp).data type_name d
      = Except.error (BuilderError.DataDoesNotExist (type_name d)) ∧
    (InstanceBuilder.ofInserts l : InstanceBuilder Id interp).data_opt d = none ∧
    (InstanceBuilder.ofInserts l : InstanceBuilder Id interp).data type_name d
      = Except.error (BuilderError.DataDoesNotExist (type_name d)) := by
  have ho : (InstanceBuilder.ofInserts l : InstanceBuilder Id interp).data_opt d = none :=
    InstanceBuilder.data_opt_of_none _ d (InstanceBuilder.dataMap_ofInserts_none l d h)
  refine ⟨rfl, rfl, ho, ?_⟩
  show (match (InstanceBuilder.ofInserts l : InstanceBuilder Id interp).data_opt d with
        | some v => Except.ok v
        | none => Except.error (BuilderError.DataDoesNotExist (type_name d))) = _
  rw [ho]

/-- C3: inserting `v1` and then `v2` at the same type identity `d` leaves
exactly the registry obtained by inserting `v2` alone, and a subsequent
lookup for `d` returns `v2`; `v1` is gone. -/
theorem InstanceBuilder.insert_insert_same_type {Id : Type} [DecidableEq Id] {interp : Id → Type}
    (r : InstanceBuilder Id interp) (d : Id) (v1 v2 : interp d) :
    (r.insert d v1).insert d v2 = r.insert d v2 ∧
    ((r.insert d v1).insert d v2).data_opt d = some v2 := by
  refine ⟨InstanceBuilder.ext_of_dataMap (funext fun k => ?_), (r.insert d v1).data_opt_insert_self d v2⟩
  by_cases hk : k = d
  · rw [((r.insert d v1).dataMap_insert d v2 k), (r.dataMap_insert d v2 k), if_pos hk, if_pos hk]
  · rw [((r.insert d v1).dataMap_insert d v2 k), (r.dataMap_insert d v2 k),
      (r.dataMap_insert d v1 k), if_neg hk, if_neg hk, if_neg hk]

/-- C4: for distinct type identities `a ≠ b`, inserting a value at `a` into
the empty registry and then performing the optional lookup at `b` returns
`none`, even when `interp a` and `interp b` are the same Lean type (the
structurally-identical-fields case): only the runtime identity matters. -/
theorem InstanceBuilder.data_opt_other_type {Id : Type} [DecidableEq Id] {interp : Id → Type}
    (a b : Id) (v : interp a) (h : a ≠ b) :
    ((InstanceBuilder.new : InstanceBuilder Id interp).insert a v).data_opt b = none := by
  rw [InstanceBuilder.data_opt_insert_of_ne _ a b v (Ne.symm h)]
  rfl

/-- C5: `build` on a registry returns exactly the result of the
construction logic of `T` applied to that registry, whatever that result is
(a constructed value, or an error, propagated unchanged from arbitrarily
nested `build` calls inside the construction logic). -/
theorem InstanceBuilder.build_eq_try_from_builder {Id : Type} {interp : Id → Type} {T : Type}
    (r : InstanceBuilder Id interp) (inst : FromInstanceBuilder Id interp T) :
    r.build inst = inst.try_from_builder r :=
  rfl

/-- C6: the state-threaded forms of `data_opt`, `data` and `build` (their
receivers are `&self`) leave the registry identical to what it was before
the call, on the success and on the error path alike. -/
theorem InstanceBuilder.lookups_and_build_read_only {Id : Type} [DecidableEq Id]
    {interp : Id → Type} {T : Type} (r : InstanceBuilder Id interp)
    (type_name : Id → String) (d : Id) (inst : FromInstanceBuilder Id interp T) :
    (r.data_optS d).2 = r ∧ (r.dataS type_name d).2 = r ∧ (r.buildS inst).2 = r :=
  ⟨rfl, rfl, rfl⟩

/-- C7: lookup is deterministic: two registries built by the same sequence
of inserts give equal results to `data_opt` and to `data` at every type
identity. -/
theorem InstanceBuilder.lookup_deterministic {Id : Type} [DecidableEq Id] {interp : Id → Type}
    (type_name : Id → String) (l : List (Sigma interp))
    (r1 r2 : InstanceBuilder Id interp) (d : Id)
    (h1 : r1 = InstanceBuilder.ofInserts l) (h2 : r2 = InstanceBuilder.ofInserts l) :
    r1.data_opt d = r2.data_opt d ∧ r1.data type_name d = r2.data type_name d := by
  subst h1
  subst h2
  exact ⟨rfl, rfl⟩

/-- C8: every registry reachable by a sequence of inserts satisfies the
storage invariant (each boxed value sits under the key equal to its own
runtime type identity), and consequently the downcast inside `data_opt`
never fails: `data_opt` returns a present value exactly when the map has an
entry for the requested key. -/
theorem InstanceBuilder.storage_invariant {Id : Type} [DecidableEq Id] {interp : Id → Type}
    (l : List (Sigma interp)) (d : Id) :
    (InstanceBuilder.ofInserts l : InstanceBuilder Id interp).WellTyped ∧
    (((InstanceBuilder.ofInserts l : InstanceBuilder Id interp).data_opt d).isSome ↔
      ((InstanceBuilder.ofInserts l : InstanceBuilder Id interp).dataMap d).isSome) := by
  have hw : (InstanceBuilder.ofInserts l : InstanceBuilder Id interp).WellTyped :=
    InstanceBuilder.wellTyped_foldl l _ InstanceBuilder.wellTyped_new
  exact ⟨hw, InstanceBuilder.data_opt_isSome_iff hw d⟩

/-- C9: frame property of `insert`: inserting at type identity `d` leaves
the `data_opt` result at any other identity `e ≠ d` unchanged, same
presence or absence and same contents. -/
theorem InstanceBuilder.insert_frame {Id : Type} [DecidableEq Id] {interp : Id → Type}
    (r : InstanceBuilder Id interp) (d e : Id) (v : interp d) (h : e ≠ d) :
    (r.insert d v).data_opt e = r.data_opt e :=
  r.data_opt_insert_of_ne d e v h

/-- C10: `default()` equals `new()`, and every optional lookup on it
returns the absent-signal. -/
theorem InstanceBuilder.default_eq_new {Id : Type} [DecidableEq Id] {interp : Id → Type}
    (d : Id) :
    (InstanceBuilder.default : InstanceBuilder Id interp) = InstanceBuilder.new ∧
    (InstanceBuilder.default : InstanceBuilder Id interp).data_opt d = none :=
  ⟨rfl, rfl⟩

/- ------------------------------------------------------------------ -/
/- Witnesses for the claim theorems that carry hypotheses.             -/
/- ------------------------------------------------------------------ -/

/-- Witness for C2 at a concrete registry holding one value of a different
type identity. -/
theorem InstanceBuilder.lookup_of_never_inserted_witness :
    (∀ e ∈ ([⟨1, (5 : Nat)⟩] : List (Sigma natInterp)), e.1 ≠ 0) ∧
    ((InstanceBuilder.new : InstanceBuilder Nat natInterp).data_opt 0 = none ∧
     (InstanceBuilder.new : InstanceBuilder Nat natInterp).data natName 0
       = Except.error (BuilderError.DataDoesNotExist (natName 0)) ∧
     (InstanceBuilder.ofInserts ([⟨1, (5 : Nat)⟩] : List (Sigma natInterp))).data_opt 0 = none ∧
     (InstanceBuilder.ofInserts ([⟨1, (5 : Nat)⟩] : List (Sigma natInterp))).data natName 0
       = Except.error (BuilderError.DataDoesNotExist (natName 0))) := by
  have h : ∀ e ∈ ([⟨1, (5 : Nat)⟩] : List (Sigma natInterp)), e.1 ≠ 0 := by
    intro e he
    rw [List.mem_singleton] at he
    subst he
    decide
  exact ⟨h, InstanceBuilder.lookup_of_never_inserted natName _ 0 h⟩

/-- Witness for C4 at two distinct type identities whose interpretations
are the same type `Nat`. -/
theorem InstanceBuilder.data_opt_other_type_witness :
    (0 : Nat) ≠ 1 ∧
    ((InstanceBuilder.new : InstanceBuilder Nat natInterp).insert 0 (5 : Nat)).data_opt 1 = none :=
  ⟨by decide, InstanceBuilder.data_opt_other_type 0 1 (5 : Nat) (by decide)⟩

/-- Witness for C7 at a concrete one-insert trace. -/
theorem InstanceBuilder.lookup_deterministic_witness :
    (InstanceBuilder.ofInserts ([⟨0, (3 : Nat)⟩] : List (Sigma natInterp))).data_opt 0
      = (InstanceBuilder.ofInserts ([⟨0, (3 : Nat)⟩] : List (Sigma natInterp))).data_opt 0 ∧
    (InstanceBuilder.ofInserts ([⟨0, (3 : Nat)⟩] : List (Sigma natInterp))).data natName 0
      = (InstanceBuilder.ofInserts ([⟨0, (3 : Nat)⟩] : List (Sigma natInterp))).data natName 0 :=
  InstanceBuilder.lookup_deterministic natName _ _ _ 0 rfl rfl

/-- Witness for C9 at concrete distinct type identities. -/
theorem InstanceBuilder.insert_frame_witness :
    (1 : Nat) ≠ 0 ∧
    ((InstanceBuilder.ofInserts ([⟨1, (7 : Nat)⟩] : List (Sigma natInterp))).insert 0 (5 : Nat)).data_opt 1
      = (InstanceBuilder.ofInserts ([⟨1, (7 : Nat)⟩] : List (Sigma natInterp))).data_opt 1 :=
  ⟨by decide, InstanceBuilder.insert_frame _ 0 1 (5 : Nat) (by decide)⟩
